import Mathlib

/-!
Verification of the S3 remote adapter (`src/remoteForS3.ts`).

The adapter talks to an external object store through an SDK client.  We
embed it shallowly: the network is modelled as the stream of responses the
backend would hand to successive `s3Client.send` calls, and every operation
returns the trace of remote requests it issues (or the error it throws) as
an `Except` value.  Local-vault I/O (reading or writing files in the vault,
`mkdirp`) and the cipher are not remote requests and are outside the trace.
-/

/-- `DEFAULT_CONTENT_TYPE` from `uploadToRemote`. -/
def DEFAULT_CONTENT_TYPE : String := "application/octet-stream"

/-- An `_Object` from a listing response: the fields `remoteForS3.ts` reads
(`Key`, `LastModified`, `Size`, `ETag`).  `LastModified.valueOf()` is embedded
as the epoch-millis number directly. -/
structure S3Obj where
  Key : String
  LastModified : Nat
  Size : Nat
  ETag : String
deriving DecidableEq, Repr

/-- `RemoteItem` as produced by this adapter (`baseTypes.ts` shape, with the
fields this file populates). -/
structure RemoteItem where
  key : String
  lastModified : Nat
  size : Nat
  remoteType : String
  etag : String
deriving DecidableEq, Repr

/-- `fromS3ObjectToRemoteItem` (lines 41-49). -/
def fromS3ObjectToRemoteItem (x : S3Obj) : RemoteItem :=
  { key := x.Key
    lastModified := x.LastModified
    size := x.Size
    remoteType := "s3"
    etag := x.ETag }

/-- One `ListObjectsV2` response page: the fields `listFromRemote` reads.
`Contents` is optional (the code checks `rsp.Contents === undefined`), and
`NextContinuationToken` is optional (may be absent on the last page). -/
structure ListPage where
  httpStatusCode : Nat
  Contents : Option (List S3Obj)
  IsTruncated : Bool
  NextContinuationToken : Option String
deriving DecidableEq, Repr

/-- The `do ... while (isTruncated)` loop of `listFromRemote` (lines 178-199),
with the backend modelled as the stream `pages` of responses to successive
`send` calls.  `continuationToken` is the loop-local variable declared
`let continuationToken = ""` on line 179: the body never reassigns it (line
192 assigns `confCmd.ContinuationToken`, a different place), so it is the
string `""` at every check on line 195; the `=== undefined` half of that
check can never hold for it and the `=== ""` half always does.  Writing
`confCmd.ContinuationToken` only shapes the next request, which in this
model is already determined by the response stream. -/
def listLoop (pages : List ListPage) (contents : List S3Obj)
    (continuationToken : String) : Except String (List S3Obj) :=
  match pages with
  | [] => Except.error "remote sent no response"
  | rsp :: rest =>
    if rsp.httpStatusCode ≠ 200 then
      Except.error "some thing bad while listing remote!"
    else
      match rsp.Contents with
      | none => Except.ok contents
      | some cs =>
        let contents2 := contents ++ cs
        let isTruncated := rsp.IsTruncated
        if isTruncated ∧ continuationToken = "" then
          Except.error "isTruncated is true but no continuationToken provided"
        else if isTruncated then
          listLoop rest contents2 continuationToken
        else
          Except.ok contents2

/-- `listFromRemote` (lines 164-205): run the pagination loop starting from
an empty accumulator and the initial `continuationToken = ""`, then map the
accumulated raw objects through `fromS3ObjectToRemoteItem` (line 203). -/
def listFromRemote (pages : List ListPage) : Except String (List RemoteItem) :=
  (listLoop pages [] "").map (fun cs => cs.map fromS3ObjectToRemoteItem)

/-- A listing object under the "notes/" key space. -/
def notesObj (i : Nat) : S3Obj :=
  { Key := "notes/" ++ toString i, LastModified := 0, Size := 1, ETag := "e" }

/-- First page of the two-page scenario: 1000 items, truncated, and the
backend DOES supply a continuation token for the next page. -/
def notesPage1 : ListPage :=
  { httpStatusCode := 200
    Contents := some ((List.range 1000).map notesObj)
    IsTruncated := true
    NextContinuationToken := some "token-for-page-2" }

/-- Second page of the two-page scenario: the remaining 37 items. -/
def notesPage2 : ListPage :=
  { httpStatusCode := 200
    Contents := some ((List.range 37).map (fun i => notesObj (1000 + i)))
    IsTruncated := false
    NextContinuationToken := none }

/-- C1: the listing split into two pages of 1000 and 37 items, with a
continuation token supplied, does NOT return 1037 items: `listFromRemote`
throws on the first truncated page because the guard on line 195 tests the
stale loop-local `continuationToken` (forever `""`) instead of the token the
response carried, so every truncated page trips the protocol-violation
error and no second page is ever requested. -/
theorem listFromRemote_two_pages_is_error :
    (notesPage1.Contents.getD []).length = 1000 ∧
    (notesPage2.Contents.getD []).length = 37 ∧
    notesPage1.NextContinuationToken = some "token-for-page-2" ∧
    listFromRemote [notesPage1, notesPage2] =
      Except.error "isTruncated is true but no continuationToken provided" := by
  refine ⟨?_, ?_, rfl, rfl⟩ <;> simp [notesPage1, notesPage2]

/-- A page that reports `IsTruncated` and supplies no continuation token, but
has no `Contents` field. -/
def truncatedNoContentsPage : ListPage :=
  { httpStatusCode := 200
    Contents := none
    IsTruncated := true
    NextContinuationToken := none }

/-- C2 counterexample: a page with `IsTruncated = true` and no continuation
token does NOT always make `listFromRemote` throw: when the page also has no
`Contents`, line 187 `break`s out of the loop before the guard on line 193
runs, and the call returns the (silently truncated) accumulated result. -/
theorem listFromRemote_truncated_no_token_returns_ok :
    truncatedNoContentsPage.IsTruncated = true ∧
    truncatedNoContentsPage.NextContinuationToken = none ∧
    listFromRemote [truncatedNoContentsPage] = Except.ok [] :=
  ⟨rfl, rfl, rfl⟩

/-- C2 amended: if the first page carries a `Contents` field and reports
`IsTruncated` while supplying no continuation token, `listFromRemote` throws
the protocol-violation error rather than looping forever or silently
truncating.  (A truncated page without `Contents` instead ends the listing
silently.) -/
theorem listFromRemote_truncated_with_contents_is_error
    (p : ListPage) (rest : List ListPage) (cs : List S3Obj)
    (h200 : p.httpStatusCode = 200) (hc : p.Contents = some cs)
    (ht : p.IsTruncated = true) (_htok : p.NextContinuationToken = none) :
    listFromRemote (p :: rest) =
      Except.error "isTruncated is true but no continuationToken provided" := by
  simp [listFromRemote, listLoop, h200, hc, ht, Except.map]

/-- A truncated page that does carry contents and no token. -/
def truncContentsPage : ListPage :=
  { httpStatusCode := 200
    Contents := some [notesObj 0]
    IsTruncated := true
    NextContinuationToken := none }

/-- Witness for `listFromRemote_truncated_with_contents_is_error`. -/
theorem listFromRemote_truncated_with_contents_is_error_witness :
    listFromRemote [truncContentsPage] =
      Except.error "isTruncated is true but no continuationToken provided" :=
  listFromRemote_truncated_with_contents_is_error truncContentsPage [] [notesObj 0]
    rfl rfl rfl rfl

/-- An object whose key will be duplicated inside one page. -/
def dupObj : S3Obj := { Key := "a", LastModified := 1, Size := 2, ETag := "e" }

/-- A single successful page listing the same key twice. -/
def dupPage : ListPage :=
  { httpStatusCode := 200
    Contents := some [dupObj, dupObj]
    IsTruncated := false
    NextContinuationToken := none }

/-- C3 counterexample: `listFromRemote` performs no deduplication — it only
`push`es each page's `Contents` onto the accumulator (line 189) — so a page
carrying the same key twice yields a result with two items of equal key. -/
theorem listFromRemote_duplicate_keys :
    listFromRemote [dupPage] =
      Except.ok [fromS3ObjectToRemoteItem dupObj, fromS3ObjectToRemoteItem dupObj] ∧
    ¬ (([fromS3ObjectToRemoteItem dupObj,
         fromS3ObjectToRemoteItem dupObj].map RemoteItem.key).Nodup) := by
  exact ⟨rfl, by decide⟩

/-- Any successful run of the pagination loop returns the accumulator
extended by a sublist (in fact a concatenation of whole pages) of all the
objects the backend's pages carry. -/
theorem listLoop_ok_sublist (pages : List ListPage) (acc : List S3Obj) (tok : String)
    (l : List S3Obj) (h : listLoop pages acc tok = Except.ok l) :
    ∃ ext, l = acc ++ ext ∧
      ext.Sublist (pages.flatMap fun p => p.Contents.getD []) := by
  induction pages generalizing acc l with
  | nil => simp [listLoop] at h
  | cons p rest ih =>
    rw [listLoop] at h
    split at h
    · exact absurd h (by simp)
    · split at h
      · exact ⟨[], by simpa using h.symm, by simp⟩
      · rename_i hcs _ cs heq
        dsimp only at h
        split at h
        · exact absurd h (by simp)
        · split at h
          · obtain ⟨ext, hext, hsub⟩ := ih _ _ h
            refine ⟨cs ++ ext, by simpa [List.append_assoc] using hext, ?_⟩
            simp only [List.flatMap_cons, heq, Option.getD_some]
            exact hsub.append_left cs
          · refine ⟨cs, by simpa using h.symm, ?_⟩
            simp only [List.flatMap_cons, heq, Option.getD_some]
            exact List.sublist_append_left cs _

/-- C3 amended: `listFromRemote` does not deduplicate, it concatenates the
pages' `Contents` in discovery order; hence whenever the objects the backend
supplies have pairwise-distinct keys, so does the returned item list. -/
theorem listFromRemote_nodup_of_backend_nodup (pages : List ListPage)
    (items : List RemoteItem)
    (hok : listFromRemote pages = Except.ok items)
    (hnd : (((pages.flatMap fun p => p.Contents.getD []).map S3Obj.Key)).Nodup) :
    (items.map RemoteItem.key).Nodup := by
  unfold listFromRemote at hok
  cases hl : listLoop pages [] "" with
  | error e => rw [hl] at hok; exact absurd hok (by simp [Except.map])
  | ok cs =>
    rw [hl] at hok
    simp only [Except.map, Except.ok.injEq] at hok
    obtain ⟨ext, hext, hsub⟩ := listLoop_ok_sublist pages [] "" cs hl
    subst hok
    have hkeys : (cs.map fromS3ObjectToRemoteItem).map RemoteItem.key
        = cs.map S3Obj.Key := by
      simp [fromS3ObjectToRemoteItem, Function.comp_def]
    rw [hkeys]
    have : cs = ext := by simpa using hext
    subst this
    exact (hsub.map S3Obj.Key).nodup hnd

/-- Two listing objects with distinct keys. -/
def objA : S3Obj := { Key := "a", LastModified := 1, Size := 2, ETag := "ea" }

/-- Second listing object with a distinct key. -/
def objB : S3Obj := { Key := "b", LastModified := 3, Size := 4, ETag := "eb" }

/-- One ordinary successful page carrying `objA` and `objB`. -/
def pageAB : ListPage :=
  { httpStatusCode := 200
    Contents := some [objA, objB]
    IsTruncated := false
    NextContinuationToken := none }

/-- Witness for `listFromRemote_nodup_of_backend_nodup`. -/
theorem listFromRemote_nodup_of_backend_nodup_witness :
    (([fromS3ObjectToRemoteItem objA,
       fromS3ObjectToRemoteItem objB].map RemoteItem.key)).Nodup :=
  listFromRemote_nodup_of_backend_nodup [pageAB]
    [fromS3ObjectToRemoteItem objA, fromS3ObjectToRemoteItem objB] rfl (by decide)

/-- JS `String.prototype.endsWith`, the builtin the adapter calls as
`fileOrFolderPath.endsWith("/")`: true when the characters of `sfx` are a
suffix of the characters of `s`. -/
def strEndsWith (s sfx : String) : Bool := sfx.data.isSuffixOf s.data

/-- The kinds of remote request `remoteForS3.ts` issues. -/
inductive S3Op where
  | putObject
  | multipartUpload
  | headObject
  | getObject
  | deleteObject
deriving DecidableEq, Repr

/-- A remote request as issued by the adapter: the operation, the `Key` sent
to the bucket, and the `ContentType` when the request carries one. -/
structure S3Request where
  op : S3Op
  key : String
  contentType : Option String
deriving DecidableEq, Repr

/-- `uploadToRemote` (lines 95-162), as the trace of remote requests it
issues.  `mimeLookup` and `mimeContentType` stand for the external
`mime.lookup` / `mime.contentType` library calls (returning `false` on
failure in JS, `none` here); `x || DEFAULT_CONTENT_TYPE` becomes
`Option.getD`.  Line 104-107: `uploadFile` is the encrypted key when a
password is set.  Folder branch: a `PutObjectCommand` with empty body and
the fixed content type, then the `HeadObjectCommand` of `getRemoteMeta`.
File branch: the vault read and optional encryption are local, then an SDK
`Upload` (multipart) with the computed content type, then `getRemoteMeta`.
An `Except.error` result models a thrown `Error`, issued before any remote
request of the traced branch. -/
def uploadToRemote (mimeLookup mimeContentType : String → Option String)
    (fileOrFolderPath : String) (isRecursively : Bool)
    (password : String) (remoteEncryptedKey : String) :
    Except String (List S3Request) :=
  let uploadFile := if password ≠ "" then remoteEncryptedKey else fileOrFolderPath
  let isFolder := strEndsWith fileOrFolderPath "/"
  if isFolder && isRecursively then
    Except.error "upload function doesn\x27t implement recursive function yet!"
  else if isFolder && !isRecursively then
    Except.ok [{ op := S3Op.putObject, key := uploadFile,
                 contentType := some DEFAULT_CONTENT_TYPE },
               { op := S3Op.headObject, key := uploadFile, contentType := none }]
  else
    let contentType :=
      if password = "" then
        (mimeContentType
          ((mimeLookup fileOrFolderPath).getD DEFAULT_CONTENT_TYPE)).getD
          DEFAULT_CONTENT_TYPE
      else DEFAULT_CONTENT_TYPE
    Except.ok [{ op := S3Op.multipartUpload, key := uploadFile,
                 contentType := some contentType },
               { op := S3Op.headObject, key := uploadFile, contentType := none }]

/-- `downloadFromRemote` (lines 248-285), as the trace of remote requests.
`mkdirpInVault` and `writeBinary` are local-vault effects; decryption is
local too.  Folder branch issues no remote read; file branch issues one
`GetObjectCommand` (via `downloadFromRemoteRaw`) keyed by the encrypted key
when a password is set (lines 268-271). -/
def downloadFromRemote (fileOrFolderPath : String)
    (password : String) (remoteEncryptedKey : String) : List S3Request :=
  let isFolder := strEndsWith fileOrFolderPath "/"
  if isFolder then
    []
  else
    let downloadFile := if password ≠ "" then remoteEncryptedKey else fileOrFolderPath
    [{ op := S3Op.getObject, key := downloadFile, contentType := none }]

/-- `deleteFromRemote` (lines 294-330), as the trace of remote requests.
Root path returns immediately (lines 301-303).  Otherwise one
`DeleteObjectCommand` on the (possibly encrypted) key is issued, and for an
unencrypted directory marker the prefix is listed (propagating any listing
error, pages drawn from `pages`) and each returned key deleted (lines
315-324; the per-entry deletes are fired independently in the source but
each is still issued, so the trace records them in order).  The encrypted
directory-marker branch (lines 325-326) is an empty `// TODO` and the plain
file branch an empty `else`, so both end the call after the single delete. -/
def deleteFromRemote (pages : List ListPage) (fileOrFolderPath : String)
    (password : String) (remoteEncryptedKey : String) :
    Except String (List S3Request) :=
  if fileOrFolderPath = "/" then
    Except.ok []
  else
    let remoteFileName := if password ≠ "" then remoteEncryptedKey else fileOrFolderPath
    let firstDelete : S3Request :=
      { op := S3Op.deleteObject, key := remoteFileName, contentType := none }
    if strEndsWith fileOrFolderPath "/" && password == "" then
      match listFromRemote pages with
      | Except.error e => Except.error e
      | Except.ok items =>
        Except.ok (firstDelete ::
          items.map fun element =>
            { op := S3Op.deleteObject, key := element.key, contentType := none })
    else
      Except.ok [firstDelete]

/-- The `$metadata` of a `HeadBucketCommand` response: `httpStatusCode` may
be absent. -/
structure ResponseMetadata where
  httpStatusCode : Option Nat
deriving DecidableEq, Repr

/-- A `HeadBucketCommand` response as `checkConnectivity` inspects it:
`$metadata` itself may be absent. -/
structure HeadBucketOutput where
  metadata : Option ResponseMetadata
deriving DecidableEq, Repr

/-- The outcome of the `await s3Client.send(new HeadBucketCommand ...)`
probe: either it threw, or it produced a value that may itself be
`undefined`. -/
inductive HeadBucketOutcome where
  | thrown
  | value (results : Option HeadBucketOutput)
deriving DecidableEq, Repr

/-- `checkConnectivity` (lines 339-358): the `catch` turns a thrown probe
into `false`; an `undefined` result, missing `$metadata` or missing
`httpStatusCode` give `false`; otherwise the result is
`httpStatusCode === 200`.  Being a total function into `Bool`, it never
throws. -/
def checkConnectivity : HeadBucketOutcome → Bool
  | HeadBucketOutcome.thrown => false
  | HeadBucketOutcome.value none => false
  | HeadBucketOutcome.value (some results) =>
    match results.metadata with
    | none => false
    | some md =>
      match md.httpStatusCode with
      | none => false
      | some code => code == 200

/-- C4: deleting a directory marker with a non-empty password surfaces NO
error: the `endsWith "/") && password !== ""` branch (lines 325-326) is an
empty `// TODO`, so the call deletes only the single (encrypted) marker
object and returns successfully, silently ignoring the directory contents. -/
theorem deleteFromRemote_encrypted_folder_no_error :
    strEndsWith "sub/" "/" = true ∧ ("pw" : String) ≠ "" ∧
    deleteFromRemote [] "sub/" "pw" "enc" =
      Except.ok [{ op := S3Op.deleteObject, key := "enc", contentType := none }] := by
  refine ⟨by decide, by decide, rfl⟩

/-- C5: with a non-empty password, every remote request issued by
`uploadToRemote`, `downloadFromRemote` and `deleteFromRemote` carries the
encrypted key `remoteEncryptedKey`; the plaintext path is never sent as a
key. -/
theorem encrypted_key_is_the_only_key_sent
    (mimeLookup mimeContentType : String → Option String) (pages : List ListPage)
    (path pw ek : String) (rec : Bool) (hpw : pw ≠ "") :
    (∀ reqs, uploadToRemote mimeLookup mimeContentType path rec pw ek =
        Except.ok reqs → ∀ r ∈ reqs, r.key = ek) ∧
    (∀ r ∈ downloadFromRemote path pw ek, r.key = ek) ∧
    (∀ reqs, deleteFromRemote pages path pw ek = Except.ok reqs →
        ∀ r ∈ reqs, r.key = ek) := by
  have hkey : (if pw ≠ "" then ek else path) = ek := if_pos hpw
  have hbeq : (pw == "") = false := by
    simpa using hpw
  refine ⟨?_, ?_, ?_⟩
  · intro reqs hreq r hr
    unfold uploadToRemote at hreq
    simp only [hkey] at hreq
    split at hreq
    · exact absurd hreq (by simp)
    · split at hreq <;>
        (injection hreq with h; subst h; fin_cases hr <;> rfl)
  · intro r hr
    unfold downloadFromRemote at hr
    simp only [hkey] at hr
    split at hr
    · simp at hr
    · simp only [List.mem_singleton] at hr
      subst hr
      rfl
  · intro reqs hreq r hr
    unfold deleteFromRemote at hreq
    split at hreq
    · injection hreq with h
      subst h
      simp at hr
    · simp only [hkey, hbeq, Bool.and_false, Bool.false_eq_true, if_false] at hreq
      injection hreq with h
      subst h
      fin_cases hr
      rfl

/-- Witness for `encrypted_key_is_the_only_key_sent`. -/
theorem encrypted_key_is_the_only_key_sent_witness :
    ("p" : String) ≠ "" ∧
    S3Request.key { op := S3Op.getObject, key := "k", contentType := none } = "k" :=
  ⟨by decide,
   (encrypted_key_is_the_only_key_sent (fun _ => none) (fun _ => none) [] "f.md"
      "p" "k" false (by decide)).2.1
     { op := S3Op.getObject, key := "k", contentType := none }
     (by decide)⟩

/-- C6: deleting the root path returns immediately (lines 301-303): no
remote request is issued for any password / encrypted-key combination, so
the remote namespace is untouched. -/
theorem deleteFromRemote_root_is_noop (pages : List ListPage) (pw ek : String) :
    deleteFromRemote pages "/" pw ek = Except.ok [] := by
  unfold deleteFromRemote
  simp

/-- C7: uploading a directory marker with `isRecursively = true` throws the
declared error (lines 112-113) and the trace carries no remote request: the
throw happens before any remote write. -/
theorem uploadToRemote_recursive_folder_throws
    (mimeLookup mimeContentType : String → Option String) (path pw ek : String)
    (hfolder : strEndsWith path "/" = true) :
    uploadToRemote mimeLookup mimeContentType path true pw ek =
      Except.error "upload function doesn\x27t implement recursive function yet!" := by
  unfold uploadToRemote
  simp [hfolder]

/-- Witness for `uploadToRemote_recursive_folder_throws`. -/
theorem uploadToRemote_recursive_folder_throws_witness :
    uploadToRemote (fun _ => none) (fun _ => none) "d/" true "" "" =
      Except.error "upload function doesn\x27t implement recursive function yet!" :=
  uploadToRemote_recursive_folder_throws (fun _ => none) (fun _ => none) "d/" "" ""
    (by decide)

/-- C8: `checkConnectivity` is a total function into `Bool` (it never
throws), and it returns `true` exactly when the probe produced a defined
response whose `$metadata.httpStatusCode` is 200; every other outcome —
a thrown probe, an `undefined` result, missing metadata or status, or a
non-200 status — yields `false`. -/
theorem checkConnectivity_true_iff_status200 (o : HeadBucketOutcome) :
    checkConnectivity o = true ↔
      o = HeadBucketOutcome.value
            (some { metadata := some { httpStatusCode := some 200 } }) := by
  cases o with
  | thrown => simp [checkConnectivity]
  | value results =>
    cases results with
    | none => simp [checkConnectivity]
    | some r =>
      obtain ⟨md⟩ := r
      cases md with
      | none => simp [checkConnectivity]
      | some m =>
        obtain ⟨code⟩ := m
        cases code with
        | none => simp [checkConnectivity]
        | some n => simp [checkConnectivity]

/-- The `ContentType` carried by the first remote request of an upload
trace. -/
def sentContentType (t : Except String (List S3Request)) : Option String :=
  match t with
  | Except.ok (r :: _) => r.contentType
  | _ => none

/-- C9: on the file branch (lines 126-161) the content type sent with the
upload is computed by the `mime` lookup pipeline when no password is set —
the looked-up type when the lookup succeeds, `application/octet-stream`
when it fails — and is always `application/octet-stream` when a password is
set (line 129-135: the lookup is skipped). -/
theorem uploadToRemote_contentType_rule
    (mimeLookup mimeContentType : String → Option String)
    (path pw ek m ct : String) (rec : Bool)
    (hfile : strEndsWith path "/" = false) :
    (pw ≠ "" →
      sentContentType (uploadToRemote mimeLookup mimeContentType path rec pw ek) =
        some DEFAULT_CONTENT_TYPE) ∧
    (pw = "" → mimeLookup path = some m → mimeContentType m = some ct →
      sentContentType (uploadToRemote mimeLookup mimeContentType path rec pw ek) =
        some ct) ∧
    (pw = "" → mimeLookup path = none →
      mimeContentType DEFAULT_CONTENT_TYPE = some DEFAULT_CONTENT_TYPE →
      sentContentType (uploadToRemote mimeLookup mimeContentType path rec pw ek) =
        some DEFAULT_CONTENT_TYPE) := by
  refine ⟨?_, ?_, ?_⟩
  · intro hpw
    simp [uploadToRemote, sentContentType, hfile, hpw]
  · intro hpw hm hct
    simp [uploadToRemote, sentContentType, hfile, hpw, hm, hct]
  · intro hpw hm hct
    simp [uploadToRemote, sentContentType, hfile, hpw, hm, hct]

/-- Witness for `uploadToRemote_contentType_rule`. -/
theorem uploadToRemote_contentType_rule_witness :
    strEndsWith "note.md" "/" = false ∧
    sentContentType (uploadToRemote (fun _ => none) (fun _ => none)
        "note.md" false "p" "k") = some DEFAULT_CONTENT_TYPE :=
  ⟨by decide,
   (uploadToRemote_contentType_rule (fun _ => none) (fun _ => none)
      "note.md" "p" "k" "" "" false (by decide)).1 (by decide)⟩

/-- C10: for a non-directory path the `isRecursively` flag is ignored — both
flag values give the same trace — and an upload fails (is not `ok`) exactly
when the path is a directory marker AND the flag is set. -/
theorem uploadToRemote_file_ignores_isRecursively
    (mimeLookup mimeContentType : String → Option String) (pw ek : String) :
    (∀ path, strEndsWith path "/" = false →
      uploadToRemote mimeLookup mimeContentType path true pw ek =
        uploadToRemote mimeLookup mimeContentType path false pw ek) ∧
    (∀ path rec,
      (uploadToRemote mimeLookup mimeContentType path rec pw ek).isOk = false ↔
        (strEndsWith path "/" && rec) = true) := by
  constructor
  · intro path hf
    simp [uploadToRemote, hf]
  · intro path rec
    by_cases hf : strEndsWith path "/"
    · cases rec <;> simp [uploadToRemote, hf, Except.isOk, Except.toBool]
    · simp only [Bool.not_eq_true] at hf
      cases rec <;> simp [uploadToRemote, hf, Except.isOk, Except.toBool]

/-- Witness for `uploadToRemote_file_ignores_isRecursively`. -/
theorem uploadToRemote_file_ignores_isRecursively_witness :
    uploadToRemote (fun _ => none) (fun _ => none) "a.md" true "" "" =
      uploadToRemote (fun _ => none) (fun _ => none) "a.md" false "" "" :=
  (uploadToRemote_file_ignores_isRecursively (fun _ => none) (fun _ => none)
      "" "").1 "a.md" (by decide)
